import Mathlib

/-!
# Verification of the COPIS client core (`src/copis/core.py`, `src/copis/classes/pose.py`)

A shallow embedding of the COPIS application core: the imaging-session state
machine (`start_imaging` / `pause` / `resume` / `_do_imaging`), the dispatch
step (`_send_next`), the side-queue guard (`send_now`), the listener iteration
(`_listen`), `disconnect`, the startup configuration check (`_check_configs`),
and the `Pose` accessors.

The embedding is sequential: thread spawns are recorded as boolean handle
fields, `join` is a no-op, and the flow-control wait loops (which mutate no
state and exit only when the listener thread arms `clear_to_send`) are
modelled as terminating with no state change.  The ghost field `trace`
records every command handed to `_send` while the serial port is connected
(the observable wire history); the `sent` field is the in-object log that
`_do_imaging` clears on normal loop exit, exactly as in the source.
-/

namespace Copis

/-- The members of `copis.globals.ActionType` referenced by `core.py`
(`_G_COMMANDS`, `_C_COMMANDS` and the dispatch in `_send`). -/
inductive ActionType where
  | G0 | G1 | G2 | G3 | G4 | G17 | G18 | G19 | G90 | G91 | G92
  | C0 | C1
  | M24 | M17 | M18
  deriving DecidableEq, BEq

/-- `copis.classes.Action`: one instruction record
(type, target device, argument count, arguments). -/
structure Action where
  atype : ActionType
  device : Nat
  argc : Nat
  args : List Int
  deriving DecidableEq, BEq

/-- `COPISCore._G_COMMANDS` (core.py lines 86-88). -/
def gCommands : List ActionType :=
  [ActionType.G0, ActionType.G1, ActionType.G2, ActionType.G3,
   ActionType.G4, ActionType.G17, ActionType.G18, ActionType.G19,
   ActionType.G90, ActionType.G91, ActionType.G92]

/-- `COPISCore._C_COMMANDS` (core.py line 89). -/
def cCommands : List ActionType := [ActionType.C0, ActionType.C1]

/-- The membership test `command.atype in self._G_COMMANDS + self._C_COMMANDS`
from `send_now` (core.py line 343). -/
def isGC (a : ActionType) : Bool := (gCommands ++ cCommands).contains a

/-- `copis.classes.ReadThread`: one listener record per open connection
(the thread handle itself is abstracted away; `stop` is the stop flag). -/
structure ReadThread where
  port : String
  stop : Bool
  deriving DecidableEq, BEq

/-- The mutable state of a `COPISCore` instance, restricted to the fields the
imaging/dispatch subsystem reads and writes.  Thread handles
(`imaging_thread`, `send_thread`) are booleans recording whether a handle is
present; `trace` is a ghost field recording the wire history (see module
doc); `messages`, `errors` and `logged_errors` record
`dispatcher.send('core_message', ...)`, `dispatcher.send('core_error', ...)`
and `logging.error(...)` calls respectively. -/
structure CoreState where
  serial_connected : Bool
  is_imaging : Bool
  is_paused : Bool
  clear_to_send : Bool
  mainqueue : Option (List Action)
  sidequeue : List Action
  sent : List Action
  trace : List Action
  imaging_thread : Bool
  send_thread : Bool
  stop_send_thread : Bool
  actions : List Action
  read_threads : List ReadThread
  active_port : Option String
  messages : List String
  errors : List String
  logged_errors : List String
  deriving DecidableEq

theorem CoreState.ext_iff {s t : CoreState} :
    s = t ↔ s.serial_connected = t.serial_connected ∧ s.is_imaging = t.is_imaging ∧
      s.is_paused = t.is_paused ∧ s.clear_to_send = t.clear_to_send ∧
      s.mainqueue = t.mainqueue ∧ s.sidequeue = t.sidequeue ∧ s.sent = t.sent ∧
      s.trace = t.trace ∧ s.imaging_thread = t.imaging_thread ∧
      s.send_thread = t.send_thread ∧ s.stop_send_thread = t.stop_send_thread ∧
      s.actions = t.actions ∧ s.read_threads = t.read_threads ∧
      s.active_port = t.active_port ∧ s.messages = t.messages ∧
      s.errors = t.errors ∧ s.logged_errors = t.logged_errors := by
  constructor
  · intro h; subst h; repeat first | apply And.intro rfl | rfl
  · intro h
    obtain ⟨h1, h2, h3, h4, h5, h6, h7, h8, h9, h10, h11, h12, h13, h14, h15, h16, h17⟩ := h
    cases s; cases t
    simp only at h1 h2 h3 h4 h5 h6 h7 h8 h9 h10 h11 h12 h13 h14 h15 h16 h17
    subst h1 h2 h3 h4 h5 h6 h7 h8 h9 h10 h11 h12 h13 h14 h15 h16 h17
    rfl

/-- The state right after `COPISCore.__init__` (core.py lines 91-143), for the
fields of the embedding: flow control off, no session, empty logs, no threads,
`_mainqueue = None`, empty side queue, serial not yet connected. -/
def initState : CoreState where
  serial_connected := false
  is_imaging := false
  is_paused := false
  clear_to_send := false
  mainqueue := none
  sidequeue := []
  sent := []
  trace := []
  imaging_thread := false
  send_thread := false
  stop_send_thread := false
  actions := []
  read_threads := []
  active_port := none
  messages := []
  errors := []
  logged_errors := []

/-- `COPISCore._send` (core.py lines 392-424): a no-op when the port is not
connected; otherwise the command is appended to the `sent` log (and to the
ghost wire `trace`).  The per-type branches (`G` write, `C0` capture via the
EDSDK, `C1`/`M24`/`M17`/`M18` pass) perform no state mutation on the core
object; a fault raised by the capture controller is modelled separately in
`do_imaging_fault`. -/
def send (s : CoreState) (command : Action) : CoreState :=
  if s.serial_connected then
    { s with sent := s.sent ++ [command], trace := s.trace ++ [command] }
  else s

/-- The truthiness test `self._mainqueue` (core.py line 383): `None` and the
empty list are falsy. -/
def mqNonempty : Option (List Action) → Bool
  | some (_ :: _) => true
  | _ => false

/-- Length of the main queue under the `None`-as-empty convention, the
termination measure component for the imaging loop. -/
def mqLen : Option (List Action) → Nat
  | some l => l.length
  | none => 0

/-- `COPISCore._send_next` (core.py lines 370-390): return if not connected;
(after the flow-control wait loop of lines 375-376, which mutates no state)
pop and send from the side queue if non-empty; otherwise if imaging with a
truthy main queue, pop its head, send it and drop `clear_to_send`; otherwise
clear `is_imaging` and arm `clear_to_send`. -/
def send_next (s : CoreState) : CoreState :=
  if s.serial_connected then
    match s.sidequeue with
    | c :: rest => send { s with sidequeue := rest } c
    | [] =>
      match s.is_imaging, s.mainqueue with
      | true, some (curr :: rest) =>
        let s1 := send { s with mainqueue := some rest } curr
        { s1 with clear_to_send := false }
      | _, _ => { s with is_imaging := false, clear_to_send := true }
  else s

/-- `COPISCore._stop_sender` (core.py lines 247-254): when a send thread is
present, set its stop flag and join it (dropping the handle). -/
def stop_sender (s : CoreState) : CoreState :=
  if s.send_thread then { s with stop_send_thread := true, send_thread := false }
  else s

/-- `COPISCore._start_sender` (core.py lines 240-245): clear the stop flag and
spawn the sender thread. -/
def start_sender (s : CoreState) : CoreState :=
  { s with stop_send_thread := false, send_thread := true }

/-- `COPISCore.start_imaging` (core.py lines 271-290): fail when already
imaging or not connected; otherwise snapshot `self._actions` into the working
main queue, raise the imaging flag, drop `clear_to_send`, spawn the imaging
worker and announce the start. -/
def start_imaging (s : CoreState) : CoreState × Bool :=
  if s.is_imaging || !s.serial_connected then (s, false)
  else
    ({ s with
        mainqueue := some s.actions
        is_imaging := true
        clear_to_send := false
        imaging_thread := true
        messages := s.messages ++ ["Imaging started"] }, true)

/-- `COPISCore.pause` (core.py lines 301-318): fail when not imaging;
otherwise raise the paused flag, drop the imaging flag, join the worker
(a no-op here; the source wraps the join in try/except for the self-join
case) and drop the worker handle. -/
def pause (s : CoreState) : CoreState × Bool :=
  if s.is_imaging then
    ({ s with is_paused := true, is_imaging := false, imaging_thread := false }, true)
  else (s, false)

/-- `COPISCore.resume` (core.py lines 320-337): fail when not paused;
otherwise drop the paused flag, raise the imaging flag, respawn the imaging
worker on the same working queue and announce the resume. -/
def resume (s : CoreState) : CoreState × Bool :=
  if s.is_paused then
    ({ s with
        is_paused := false
        is_imaging := true
        imaging_thread := true
        messages := s.messages ++ ["Imaging resumed"] }, true)
  else (s, false)

/-- `COPISCore.send_now` (core.py lines 339-350): while imaging, a command of
G or C type is rejected with a `core_error` notification and not enqueued;
otherwise, when connected, the command is put on the side queue; when not
connected it is dropped with a `logging.error`. -/
def send_now (s : CoreState) (command : Action) : CoreState :=
  if s.is_imaging && isGC command.atype then
    { s with errors := s.errors ++ ["Action commands not allowed while imaging."] }
  else if s.serial_connected then
    { s with sidequeue := s.sidequeue ++ [command] }
  else
    { s with logged_errors := s.logged_errors ++ ["Not connected to device."] }

/-- Termination measure for the imaging loop of `_do_imaging`: every
`_send_next` call while imaging and connected either pops one side-queue
item, pops one main-queue item, or drops the imaging flag. -/
def stateMeasure (s : CoreState) : Nat :=
  s.sidequeue.length + mqLen s.mainqueue + (if s.is_imaging then 1 else 0)

theorem stateMeasure_send_next_lt (s : CoreState)
    (himg : s.is_imaging = true) (hcon : s.serial_connected = true) :
    stateMeasure (send_next s) < stateMeasure s := by
  unfold send_next
  rw [hcon]
  simp only [if_true]
  cases hsq : s.sidequeue with
  | cons c rest =>
    simp only [send, stateMeasure, hsq]
    split <;> simp [mqLen, Nat.add_lt_add_iff_right]
  | nil =>
    rw [himg]
    cases hmq : s.mainqueue with
    | none => simp [stateMeasure, hsq, hmq, himg, mqLen]
    | some l =>
      cases l with
      | nil => simp [stateMeasure, hsq, hmq, himg, mqLen]
      | cons a rest =>
        simp [stateMeasure, send, hsq, hmq, himg, mqLen, hcon]

/-- The `while self.is_imaging and self.is_serial_port_connected` loop inside
`_do_imaging` (core.py lines 357-358), run to completion. -/
def imaging_loop (s : CoreState) : CoreState :=
  if h : s.is_imaging = true ∧ s.serial_connected = true then
    imaging_loop (send_next s)
  else s
termination_by stateMeasure s
decreasing_by exact stateMeasure_send_next_lt s h.1 h.2

/-- A bounded prefix of the same loop: `n` guarded iterations of
`_send_next`.  Used to describe the worker state at the moment an external
event (a pause, or a raised exception) interrupts the loop. -/
def imaging_iter : Nat → CoreState → CoreState
  | 0, s => s
  | Nat.succ n, s =>
    if s.is_imaging = true ∧ s.serial_connected = true then
      imaging_iter n (send_next s)
    else s

/-- The tail of a normal (exception-free) `_do_imaging` run: the try-suite
epilogue resetting `sentlines` and `sent`, plus the finally-suite dropping
`imaging_thread` and calling `_start_sender` (core.py lines 360-368).
Also the exit path of a worker whose loop guard was broken by `pause`. -/
def worker_exit (s : CoreState) : CoreState :=
  start_sender { s with sent := [], imaging_thread := false }

/-- `COPISCore._do_imaging` (core.py lines 352-368) without a fault: stop the
side-queue sender, drain the loop, clear the sent log, drop the worker handle
and restart the sender. -/
def do_imaging (s : CoreState) : CoreState :=
  worker_exit (imaging_loop (stop_sender s))

/-- `COPISCore._do_imaging` when the try suite raises after `k` completed
loop iterations (e.g. the EDSDK capture controller throwing inside `_send`):
the bare `except` logs `Imaging thread died` and the `finally` suite drops
the worker handle and restarts the sender.  Neither handler touches
`is_imaging`, the queues, or the sent log. -/
def do_imaging_fault (s : CoreState) (k : Nat) : CoreState :=
  let s1 := imaging_iter k (stop_sender s)
  start_sender { s1 with
    logged_errors := s1.logged_errors ++ ["Imaging thread died"]
    imaging_thread := false }

/-- The Python truthiness test `if resp:` on the value returned by
`self._serial.read` (`None` and the empty string are falsy). -/
def respTruthy : Option String → Bool
  | none => false
  | some r => !r.isEmpty

/-- One iteration of the `COPISCore._listen` loop body (core.py lines
230-236), given whether the EDSDK reports `is_waiting_for_image` and the
value returned by `self._serial.read`: when the capture device is
mid-operation nothing happens; otherwise `clear_to_send` is set (before the
read, unconditionally) and a truthy response is published as a
`core_message`. -/
def listen_iter (s : CoreState) (waiting : Bool) (resp : Option String) : CoreState :=
  if waiting then s
  else
    let s1 := { s with clear_to_send := true }
    if respTruthy resp then
      { s1 with messages := s1.messages ++ [resp.getD ""] }
    else s1

/-- The two exceptions that can escape `COPISCore.disconnect`:
`StopIteration` from `next(filter(...))` with no default (core.py line 171)
and `UnboundLocalError` from the use of `port_name` outside the branch that
assigns it (core.py line 191). -/
inductive PyError where
  | stopIteration
  | unboundLocal
  deriving DecidableEq

/-- Python `list.remove`: drop the first element equal to `x`. -/
def removeFirst (l : List ReadThread) (x : ReadThread) : List ReadThread :=
  match l with
  | [] => []
  | y :: ys => if y = x then ys else y :: removeFirst ys x

/-- `COPISCore.disconnect` (core.py lines 166-191).  When the port is
connected: find the read thread for the active port with `next(filter(...))`
(raising `StopIteration` when there is none); stop, join and remove it; stop
the sender when no read threads remain; tear down a live imaging worker;
close the port; then (unconditionally) clear `is_imaging` and announce the
disconnect.  When the port is not connected the announcement still runs and
reads the never-assigned local `port_name`, raising `UnboundLocalError`
after `is_imaging` was already cleared.  An error result carries the state
at the moment the exception escapes. -/
def disconnect (s : CoreState) : Except (PyError × CoreState) CoreState :=
  if s.serial_connected then
    match s.read_threads.find? (fun t => some t.port == s.active_port) with
    | none => Except.error (PyError.stopIteration, s)
    | some rt =>
      let s1 := { s with read_threads := removeFirst s.read_threads rt }
      let s2 := if s1.read_threads.isEmpty then stop_sender s1 else s1
      let s3 :=
        if s2.imaging_thread then { s2 with is_imaging := false, imaging_thread := false }
        else s2
      let s4 := { s3 with serial_connected := false, is_imaging := false }
      Except.ok { s4 with
        messages := s4.messages ++ [String.append "Disconnected from device " rt.port] }
  else Except.error (PyError.unboundLocal, { s with is_imaging := false })

/-- The configuration fields `_check_configs` reads:
`config.settings.debug_env == DebugEnv.DEV.value` and whether
`config.machine_settings.machine` is `None`. -/
structure Config where
  debug_env_is_dev : Bool
  machine_present : Bool
  deriving DecidableEq

/-- The message built by `_check_configs` when the machine is missing. -/
def machineMsg : String := "The machine is not configured."

/-- `COPISCore._check_configs` (core.py lines 145-164): `warn` starts as the
dev-mode flag; a missing machine forces `warn = False` and sets the message
(the source comment: throw no matter what); a set message is then either
warned (returned in the ok list) or raised (the error case). -/
def check_configs (cfg : Config) : Except String (List String) :=
  let first : Bool × Option String :=
    if cfg.machine_present then (cfg.debug_env_is_dev, none)
    else (false, some machineMsg)
  match first.2 with
  | none => Except.ok []
  | some m => if first.1 then Except.ok [m] else Except.error m

/-- `copis.classes.Pose` (pose.py lines 23-26): an optional position action
paired with an optional list of payload actions. -/
structure Pose where
  position : Option Action
  payload : Option (List Action)
  deriving DecidableEq

/-- The truthiness test `if self.payload and len(self.payload) > 0`
(pose.py lines 32 and 43). -/
def payloadPart : Option (List Action) → List Action
  | some l => l
  | none => []

/-- `Pose.get_actions` (pose.py lines 28-35): the position (when present)
followed by the payload actions. -/
def Pose.get_actions (p : Pose) : List Action :=
  (match p.position with
   | some a => [a]
   | none => []) ++ payloadPart p.payload

/-- `Pose.get_seq_actions` (pose.py lines 37-46): like `get_actions` but a
missing position still holds a `None` slot in the returned list. -/
def Pose.get_seq_actions (p : Pose) : List (Option Action) :=
  (match p.position with
   | some a => [some a]
   | none => [none]) ++ (payloadPart p.payload).map some

/-- The C1 scenario, first half: start imaging (the spawned worker begins by
stopping the side-queue sender), let the worker complete `k` dispatch
iterations, then `pause()` (whose join lets the interrupted worker run its
exit path: guard re-check fails, try-suite epilogue, finally-suite). -/
def pause_point (s0 : CoreState) (k : Nat) : CoreState :=
  worker_exit (pause (imaging_iter k (stop_sender (start_imaging s0).1))).1

/-- The C1 scenario, second half: `resume()` respawns the worker, which runs
`_do_imaging` to completion on the same working queue. -/
def pause_resume_run (s0 : CoreState) (k : Nat) : CoreState :=
  do_imaging (resume (pause_point s0 k)).1

/-- Concrete motion action used in witnesses. -/
def actA : Action := ⟨ActionType.G0, 0, 2, [10, 20]⟩

/-- Concrete motion action used in witnesses. -/
def actB : Action := ⟨ActionType.G1, 0, 2, [30, 40]⟩

/-- Concrete capture action used in witnesses. -/
def actC : Action := ⟨ActionType.C0, 1, 0, []⟩

/-- Concrete motion action used in witnesses. -/
def actD : Action := ⟨ActionType.G2, 0, 2, [50, 60]⟩

/-- Concrete system action (not a G or C type) used in witnesses. -/
def actM : Action := ⟨ActionType.M24, 0, 0, []⟩

/-- A connected idle core with a four-action path, as after `connect` and
path generation: the C1/C5 witness state. -/
def s0c : CoreState :=
  { initState with
      serial_connected := true
      send_thread := true
      actions := [actA, actB, actC, actD] }

/-- A connected core holding one side-queue command: the C2 witness state. -/
def sideState : CoreState :=
  { initState with serial_connected := true, sidequeue := [actM] }

/-- A connected core mid-imaging-session: the C4 witness state. -/
def imagingState : CoreState :=
  { initState with
      serial_connected := true
      is_imaging := true
      mainqueue := some [actC] }

/-- A connected imaging state in which the worker faults while the loop guard
holds (e.g. the EDSDK capture controller throwing on the pending `C0`):
the C3 counterexample state. -/
def faultState : CoreState :=
  { initState with
      serial_connected := true
      is_imaging := true
      imaging_thread := true
      send_thread := true
      mainqueue := some [actC] }

/-- A connected core whose read-thread list has no entry for the active
port: the C7 StopIteration state. -/
def noListenerState : CoreState :=
  { initState with serial_connected := true, active_port := some "COM1" }

/-! ## Helper lemmas on the dispatch step and the imaging loop -/

theorem send_next_side (s : CoreState) (c : Action) (rest : List Action)
    (hcon : s.serial_connected = true) (hsq : s.sidequeue = c :: rest) :
    send_next s =
      { s with sidequeue := rest, sent := s.sent ++ [c], trace := s.trace ++ [c] } := by
  simp [send_next, send, hcon, hsq]

theorem send_next_main (s : CoreState) (a : Action) (ms : List Action)
    (hcon : s.serial_connected = true) (hsq : s.sidequeue = [])
    (himg : s.is_imaging = true) (hmq : s.mainqueue = some (a :: ms)) :
    send_next s =
      { s with
          mainqueue := some ms
          sent := s.sent ++ [a]
          trace := s.trace ++ [a]
          clear_to_send := false } := by
  simp [send_next, send, hcon, hsq, himg, hmq]

theorem send_next_done (s : CoreState) (hcon : s.serial_connected = true)
    (hsq : s.sidequeue = [])
    (h : s.is_imaging = false ∨ s.mainqueue = none ∨ s.mainqueue = some []) :
    send_next s = { s with is_imaging := false, clear_to_send := true } := by
  rcases h with h | h | h
  · cases hmq : s.mainqueue with
    | none => simp [send_next, hcon, hsq, h, hmq]
    | some l => cases l <;> simp [send_next, hcon, hsq, h, hmq]
  · cases himg : s.is_imaging <;> simp [send_next, hcon, hsq, himg, h]
  · cases himg : s.is_imaging <;> simp [send_next, hcon, hsq, himg, h]

theorem imaging_loop_eq (s : CoreState) :
    imaging_loop s =
      if s.is_imaging = true ∧ s.serial_connected = true then
        imaging_loop (send_next s)
      else s := by
  conv_lhs => unfold imaging_loop
  simp [dite_eq_ite]

theorem imaging_loop_drain (q : List Action) : ∀ (s : CoreState),
    s.serial_connected = true → s.is_imaging = true → s.sidequeue = [] →
    s.mainqueue = some q →
    imaging_loop s =
      { s with
          mainqueue := some []
          is_imaging := false
          clear_to_send := true
          sent := s.sent ++ q
          trace := s.trace ++ q } := by
  induction q with
  | nil =>
    intro s hcon himg hsq hmq
    rw [imaging_loop_eq, if_pos ⟨himg, hcon⟩,
      send_next_done s hcon hsq (Or.inr (Or.inr hmq)), imaging_loop_eq]
    simp [← hmq]
  | cons a ms ih =>
    intro s hcon himg hsq hmq
    rw [imaging_loop_eq, if_pos ⟨himg, hcon⟩, send_next_main s a ms hcon hsq himg hmq]
    rw [ih { s with
              mainqueue := some ms
              sent := s.sent ++ [a]
              trace := s.trace ++ [a]
              clear_to_send := false } hcon himg hsq rfl]
    simp

theorem imaging_iter_take (k : Nat) : ∀ (s : CoreState) (q : List Action),
    s.serial_connected = true → s.is_imaging = true → s.sidequeue = [] →
    s.mainqueue = some q → s.clear_to_send = false → k ≤ q.length →
    imaging_iter k s =
      { s with
          mainqueue := some (q.drop k)
          sent := s.sent ++ q.take k
          trace := s.trace ++ q.take k } := by
  induction k with
  | zero =>
    intro s q hcon himg hsq hmq hcts hk
    simp [imaging_iter, ← hmq]
  | succ n ih =>
    intro s q hcon himg hsq hmq hcts hk
    cases q with
    | nil => exact absurd hk (by simp)
    | cons a ms =>
      rw [imaging_iter, if_pos ⟨himg, hcon⟩, send_next_main s a ms hcon hsq himg hmq]
      rw [ih { s with
                mainqueue := some ms
                sent := s.sent ++ [a]
                trace := s.trace ++ [a]
                clear_to_send := false } ms hcon himg hsq rfl rfl (Nat.le_of_succ_le_succ hk)]
      simp [hcts]

/-! ## Claim theorems -/

/-- C2: at every dispatch step with the port connected, a non-empty side
queue is serviced first (its head is popped and sent, the main queue and the
imaging flag untouched); only with an empty side queue, an active session and
a truthy main queue is the main-queue head popped and sent (dropping flow
control); otherwise the session is marked complete (imaging flag dropped,
flow control armed) with nothing sent. -/
theorem dispatch_priority (s : CoreState) (hcon : s.serial_connected = true) :
    (s.sidequeue ≠ [] →
      send_next s =
        { s with
            sidequeue := s.sidequeue.tail
            sent := s.sent ++ s.sidequeue.take 1
            trace := s.trace ++ s.sidequeue.take 1 })
  ∧ (s.sidequeue = [] → s.is_imaging = true → mqNonempty s.mainqueue = true →
      send_next s =
        { s with
            mainqueue := some ((s.mainqueue.getD []).tail)
            sent := s.sent ++ (s.mainqueue.getD []).take 1
            trace := s.trace ++ (s.mainqueue.getD []).take 1
            clear_to_send := false })
  ∧ (s.sidequeue = [] → (s.is_imaging = false ∨ mqNonempty s.mainqueue = false) →
      send_next s = { s with is_imaging := false, clear_to_send := true }) := by
  refine ⟨?_, ?_, ?_⟩
  · intro h
    cases hsq : s.sidequeue with
    | nil => exact absurd hsq h
    | cons c rest => rw [send_next_side s c rest hcon hsq]; simp [hsq]
  · intro hsq himg hmq
    cases hm : s.mainqueue with
    | none => rw [hm] at hmq; simp [mqNonempty] at hmq
    | some l =>
      cases l with
      | nil => rw [hm] at hmq; simp [mqNonempty] at hmq
      | cons a ms => rw [send_next_main s a ms hcon hsq himg hm]; simp [hm]
  · intro hsq h
    apply send_next_done s hcon hsq
    rcases h with h | h
    · exact Or.inl h
    · cases hm : s.mainqueue with
      | none => exact Or.inr (Or.inl rfl)
      | some l =>
        cases l with
        | nil => exact Or.inr (Or.inr rfl)
        | cons a ms => rw [hm] at h; simp [mqNonempty] at h

/-- C2 witness: at a concrete connected state holding one side-queue command,
the dispatch step pops and sends it. -/
theorem dispatch_priority_witness :
    sideState.serial_connected = true ∧
    send_next sideState =
      { sideState with
          sidequeue := sideState.sidequeue.tail
          sent := sideState.sent ++ sideState.sidequeue.take 1
          trace := sideState.trace ++ sideState.sidequeue.take 1 } :=
  ⟨rfl, (dispatch_priority sideState rfl).1 (by decide)⟩

/-- C4: while a session is active, `send_now` of a motion (G) or capture (C)
command only fires a `core_error` notification: the side queue is unchanged
and the command is not enqueued; a command of any other type, when connected,
is appended to the side queue. -/
theorem send_now_guard (s : CoreState) (c : Action) (himg : s.is_imaging = true) :
    (isGC c.atype = true →
      send_now s c =
        { s with errors := s.errors ++ ["Action commands not allowed while imaging."] })
  ∧ (isGC c.atype = false → s.serial_connected = true →
      send_now s c = { s with sidequeue := s.sidequeue ++ [c] }) := by
  constructor
  · intro h; simp [send_now, himg, h]
  · intro h hcon; simp [send_now, himg, h, hcon]

/-- C4 witness: mid-session, a concrete G0 command is rejected with the error
notification and the side queue unchanged, while a concrete M24 command is
enqueued. -/
theorem send_now_guard_witness :
    send_now imagingState actA =
      { imagingState with
          errors := imagingState.errors ++ ["Action commands not allowed while imaging."] }
  ∧ send_now imagingState actM =
      { imagingState with sidequeue := imagingState.sidequeue ++ [actM] } :=
  ⟨(send_now_guard imagingState actA rfl).1 (by decide),
   (send_now_guard imagingState actM rfl).2 (by decide) rfl⟩

/-- C5: `start_imaging` returns failure as a strict no-op — no worker thread
spawned, action list, working queue and all flags unchanged — both when a
session is already imaging and when the port is not connected. -/
theorem start_imaging_guard (s : CoreState)
    (h : s.is_imaging = true ∨ s.serial_connected = false) :
    start_imaging s = (s, false) := by
  rcases h with h | h <;> simp [start_imaging, h]

/-- C5 witness: `start_imaging` fails unchanged on a concrete mid-session
state and on the concrete freshly-initialized (disconnected) state. -/
theorem start_imaging_guard_witness :
    start_imaging imagingState = (imagingState, false)
  ∧ start_imaging initState = (initState, false) :=
  ⟨start_imaging_guard imagingState (Or.inl rfl),
   start_imaging_guard initState (Or.inr rfl)⟩

/-- C9: a Pose with no position and payload actions flattens to exactly the
payload under `get_actions`, and to a leading `None` placeholder followed by
the payload under `get_seq_actions`; instantiated at a two-action payload
and stated for an arbitrary payload. -/
theorem pose_accessors (a b : Action) (pl : List Action) :
    Pose.get_actions ⟨none, some [a, b]⟩ = [a, b]
  ∧ Pose.get_seq_actions ⟨none, some [a, b]⟩ = [none, some a, some b]
  ∧ Pose.get_actions ⟨none, some pl⟩ = pl
  ∧ Pose.get_seq_actions ⟨none, some pl⟩ = none :: pl.map some :=
  ⟨rfl, rfl, rfl, rfl⟩

/-- C10: `pause` called when no imaging run is active, and `resume` called
when not paused, each return failure with the entire state (every field)
unchanged. -/
theorem pause_resume_rejected (s : CoreState) :
    (s.is_imaging = false → pause s = (s, false))
  ∧ (s.is_paused = false → resume s = (s, false)) := by
  constructor
  · intro h; simp [pause, h]
  · intro h; simp [resume, h]

/-- C10 witness: on the concrete freshly-initialized state, both guards
reject with the state unchanged. -/
theorem pause_resume_rejected_witness :
    pause initState = (initState, false) ∧ resume initState = (initState, false) :=
  ⟨(pause_resume_rejected initState).1 rfl, (pause_resume_rejected initState).2 rfl⟩

/-- C3 counterexample: a fault raised inside the first loop iteration of a
concrete imaging run (the loop guard holds at the fault) leaves
`is_imaging = true` after the except/finally handlers — the session is not
forced back to Idle, contrary to the claim. -/
theorem worker_fault_counterexample :
    faultState.is_imaging = true
  ∧ faultState.serial_connected = true
  ∧ (do_imaging_fault faultState 0).is_imaging = true :=
  ⟨rfl, rfl, rfl⟩

/-- C3 amended: a fault inside the imaging loop is caught at the loop
boundary (the handler runs and the model stays total), logged, the worker
thread reference is cleared and the side-queue sender restarted — but
`is_imaging` keeps whatever value it had when the fault was raised (it is
not forced to false). -/
theorem worker_fault_contained (s : CoreState) (k : Nat) :
    (do_imaging_fault s k).imaging_thread = false
  ∧ (do_imaging_fault s k).send_thread = true
  ∧ (do_imaging_fault s k).stop_send_thread = false
  ∧ (do_imaging_fault s k).logged_errors
      = (imaging_iter k (stop_sender s)).logged_errors ++ ["Imaging thread died"]
  ∧ (do_imaging_fault s k).is_imaging = (imaging_iter k (stop_sender s)).is_imaging :=
  ⟨rfl, rfl, rfl, rfl, rfl⟩

/-- C6: in a listener iteration with the capture device idle and the read
returning no data, the code still sets `clear_to_send` to true (it arms flow
control before the read, unconditionally), publishing nothing — against the
claim (and the source comment at core.py line 107) that flow control is
armed exactly by a non-empty response. -/
theorem listen_arms_without_response :
    initState.clear_to_send = false
  ∧ (listen_iter initState false none).clear_to_send = true
  ∧ (listen_iter initState false none).messages = initState.messages :=
  ⟨rfl, rfl, rfl⟩

/-- C7: `disconnect` with no active listener thread is not a no-op:
when the port is not connected it raises `UnboundLocalError` (the
announcement at core.py line 191 reads the never-assigned `port_name`, after
line 189 already cleared `is_imaging`), and when the port is connected with
no read-thread entry for the active port, `next(filter(...))` at line 171
raises `StopIteration` — against the claim of a no-exception no-op. -/
theorem disconnect_raises :
    disconnect initState
      = Except.error (PyError.unboundLocal, { initState with is_imaging := false })
  ∧ disconnect noListenerState
      = Except.error (PyError.stopIteration, noListenerState) :=
  ⟨rfl, rfl⟩

/-- C8 counterexample: with the development-mode override active and the
machine configuration missing, `_check_configs` still raises (the source
forces `warn = False` for a missing machine) instead of warning and
returning normally as the claim states. -/
theorem check_configs_counterexample :
    Config.debug_env_is_dev ⟨true, false⟩ = true
  ∧ check_configs ⟨true, false⟩ = Except.error machineMsg :=
  ⟨rfl, rfl⟩

/-- C8 amended: a missing machine configuration makes the startup check
fatal regardless of the development-mode override; with a machine configured
the check returns normally with no warning (no other validity check is
implemented). -/
theorem check_configs_machine_fatal (cfg : Config) :
    (cfg.machine_present = false → check_configs cfg = Except.error machineMsg)
  ∧ (cfg.machine_present = true → check_configs cfg = Except.ok []) := by
  constructor
  · intro h; simp [check_configs, h]
  · intro h; simp [check_configs, h]

/-- C8 witness: concrete dev-mode config without a machine raises; concrete
config with a machine passes. -/
theorem check_configs_machine_fatal_witness :
    check_configs ⟨true, false⟩ = Except.error machineMsg
  ∧ check_configs ⟨false, true⟩ = Except.ok [] :=
  ⟨(check_configs_machine_fatal ⟨true, false⟩).1 rfl,
   (check_configs_machine_fatal ⟨false, true⟩).2 rfl⟩

/-- C1: from an idle connected core with any action list and any prefix
length `k` of it already dispatched, pausing the run and resuming it sends
exactly the remaining not-yet-sent main-queue items: the trace at the pause
point is the sent prefix, the resumed run extends it by exactly the dropped
suffix in order, the overall trace is the whole original list (no duplicates,
no drops), and the working queue ends empty. -/
theorem pause_resume_exact (s0 : CoreState) (k : Nat)
    (h1 : s0.is_imaging = false) (h2 : s0.is_paused = false)
    (h3 : s0.serial_connected = true) (h4 : s0.sidequeue = [])
    (h5 : s0.send_thread = true) (h6 : k ≤ s0.actions.length) :
    (pause_point s0 k).trace = s0.trace ++ s0.actions.take k
  ∧ (pause_resume_run s0 k).trace = (pause_point s0 k).trace ++ s0.actions.drop k
  ∧ (pause_resume_run s0 k).trace = s0.trace ++ s0.actions
  ∧ (pause_resume_run s0 k).mainqueue = some [] := by
  have e1 : (start_imaging s0).1 =
      { s0 with
          mainqueue := some s0.actions
          is_imaging := true
          clear_to_send := false
          imaging_thread := true
          messages := s0.messages ++ ["Imaging started"] } := by
    unfold start_imaging
    rw [h1, h3]
    rfl
  have e2 : stop_sender
      { s0 with
          mainqueue := some s0.actions
          is_imaging := true
          clear_to_send := false
          imaging_thread := true
          messages := s0.messages ++ ["Imaging started"] } =
      { s0 with
          mainqueue := some s0.actions
          is_imaging := true
          clear_to_send := false
          imaging_thread := true
          messages := s0.messages ++ ["Imaging started"]
          stop_send_thread := true
          send_thread := false } := by
    unfold stop_sender
    rw [show ({ s0 with
          mainqueue := some s0.actions
          is_imaging := true
          clear_to_send := false
          imaging_thread := true
          messages := s0.messages ++ ["Imaging started"] } : CoreState).send_thread
        = s0.send_thread from rfl, h5]
    rfl
  have e3 : imaging_iter k
      { s0 with
          mainqueue := some s0.actions
          is_imaging := true
          clear_to_send := false
          imaging_thread := true
          messages := s0.messages ++ ["Imaging started"]
          stop_send_thread := true
          send_thread := false } =
      { s0 with
          mainqueue := some (s0.actions.drop k)
          is_imaging := true
          clear_to_send := false
          imaging_thread := true
          messages := s0.messages ++ ["Imaging started"]
          stop_send_thread := true
          send_thread := false
          sent := s0.sent ++ s0.actions.take k
          trace := s0.trace ++ s0.actions.take k } := by
    rw [imaging_iter_take k
      { s0 with
          mainqueue := some s0.actions
          is_imaging := true
          clear_to_send := false
          imaging_thread := true
          messages := s0.messages ++ ["Imaging started"]
          stop_send_thread := true
          send_thread := false } s0.actions h3 rfl h4 rfl rfl h6]
  have hpp : pause_point s0 k =
      { s0 with
          mainqueue := some (s0.actions.drop k)
          is_imaging := false
          is_paused := true
          clear_to_send := false
          messages := s0.messages ++ ["Imaging started"]
          sent := []
          trace := s0.trace ++ s0.actions.take k
          imaging_thread := false
          send_thread := true
          stop_send_thread := false } := by
    unfold pause_point
    rw [e1, e2, e3]
    rfl
  have e8 : imaging_loop
      { s0 with
          mainqueue := some (s0.actions.drop k)
          is_imaging := true
          is_paused := false
          clear_to_send := false
          messages := s0.messages ++ ["Imaging started"] ++ ["Imaging resumed"]
          sent := []
          trace := s0.trace ++ s0.actions.take k
          imaging_thread := true
          send_thread := false
          stop_send_thread := true } =
      { s0 with
          mainqueue := some []
          is_imaging := false
          is_paused := false
          clear_to_send := true
          messages := s0.messages ++ ["Imaging started"] ++ ["Imaging resumed"]
          sent := s0.actions.drop k
          trace := s0.trace ++ s0.actions.take k ++ s0.actions.drop k
          imaging_thread := true
          send_thread := false
          stop_send_thread := true } := by
    rw [imaging_loop_drain (s0.actions.drop k)
      { s0 with
          mainqueue := some (s0.actions.drop k)
          is_imaging := true
          is_paused := false
          clear_to_send := false
          messages := s0.messages ++ ["Imaging started"] ++ ["Imaging resumed"]
          sent := []
          trace := s0.trace ++ s0.actions.take k
          imaging_thread := true
          send_thread := false
          stop_send_thread := true } h3 rfl h4 rfl]
    rfl
  have hrun : pause_resume_run s0 k =
      { s0 with
          mainqueue := some []
          is_imaging := false
          is_paused := false
          clear_to_send := true
          messages := s0.messages ++ ["Imaging started"] ++ ["Imaging resumed"]
          sent := []
          trace := s0.trace ++ s0.actions.take k ++ s0.actions.drop k
          imaging_thread := false
          send_thread := true
          stop_send_thread := false } := by
    unfold pause_resume_run do_imaging
    rw [hpp]
    rw [show (resume
      { s0 with
          mainqueue := some (s0.actions.drop k)
          is_imaging := false
          is_paused := true
          clear_to_send := false
          messages := s0.messages ++ ["Imaging started"]
          sent := []
          trace := s0.trace ++ s0.actions.take k
          imaging_thread := false
          send_thread := true
          stop_send_thread := false }).1 =
      { s0 with
          mainqueue := some (s0.actions.drop k)
          is_imaging := true
          is_paused := false
          clear_to_send := false
          messages := s0.messages ++ ["Imaging started"] ++ ["Imaging resumed"]
          sent := []
          trace := s0.trace ++ s0.actions.take k
          imaging_thread := true
          send_thread := true
          stop_send_thread := false } from rfl]
    rw [show stop_sender
      { s0 with
          mainqueue := some (s0.actions.drop k)
          is_imaging := true
          is_paused := false
          clear_to_send := false
          messages := s0.messages ++ ["Imaging started"] ++ ["Imaging resumed"]
          sent := []
          trace := s0.trace ++ s0.actions.take k
          imaging_thread := true
          send_thread := true
          stop_send_thread := false } =
      { s0 with
          mainqueue := some (s0.actions.drop k)
          is_imaging := true
          is_paused := false
          clear_to_send := false
          messages := s0.messages ++ ["Imaging started"] ++ ["Imaging resumed"]
          sent := []
          trace := s0.trace ++ s0.actions.take k
          imaging_thread := true
          send_thread := false
          stop_send_thread := true } from rfl]
    rw [e8]
    rfl
  refine ⟨?_, ?_, ?_, ?_⟩
  · rw [hpp]
  · rw [hrun, hpp]
  · rw [hrun]
    simp only [List.append_assoc, List.take_append_drop]
  · rw [hrun]

/-- C1 witness: with the concrete four-action path, pausing after two sent
items and resuming sends exactly the last two, and the full trace is the
original four in order. -/
theorem pause_resume_exact_witness :
    2 ≤ s0c.actions.length
  ∧ (pause_point s0c 2).trace = s0c.trace ++ s0c.actions.take 2
  ∧ (pause_resume_run s0c 2).trace = (pause_point s0c 2).trace ++ s0c.actions.drop 2
  ∧ (pause_resume_run s0c 2).trace = s0c.trace ++ s0c.actions :=
  ⟨by decide,
   (pause_resume_exact s0c 2 rfl rfl rfl rfl rfl (by decide)).1,
   (pause_resume_exact s0c 2 rfl rfl rfl rfl rfl (by decide)).2.1,
   (pause_resume_exact s0c 2 rfl rfl rfl rfl rfl (by decide)).2.2.1⟩

end Copis
